import Mathlib

/-!
Shallow embedding of `src/backend/main.py` (a small Flask relay in front of a
Dataverse OData endpoint) and proofs about its claimed behaviour.

The outside world (the identity provider and the data service) is modelled by
an `Upstream` oracle giving the outcome of each outbound HTTP call; Python
exceptions are modelled by the `PyExc` type (`requests.HTTPError`, which
carries the completed response, versus every other exception).  Handler
responses are the pair of an HTTP status and a JSON body, together with the
trace of outbound calls attempted while handling the request.
-/

namespace Relay

/-- JSON values, as produced by `resp.json()` and consumed by `jsonify`. -/
inductive Json where
  | obj : List (String × Json) → Json
  | arr : List Json → Json
  | str : String → Json
  | num : Int → Json
  | boolean : Bool → Json
  | null : Json

/-- First value bound to a key in an association list (Python dict access). -/
def dictGet {β : Type} (kvs : List (String × β)) (k : String) : Option β :=
  (kvs.find? fun kv => kv.1 == k).map fun kv => kv.2

/-- Field lookup on a JSON object; `none` on non-objects or missing keys. -/
def jsonLookup : Json → String → Option Json
  | Json.obj fs, k => dictGet fs k
  | _, _ => none

/-- Python exceptions as this program distinguishes them: `requests.HTTPError`
(raised only by `raise_for_status`, hence always carrying the completed
response's status and body text) versus any other exception, of which only
the rendered message is used. -/
inductive PyExc where
  | httpError (status : Nat) (bodyText : String)
  | other (msg : String)

/-- Outcome of one outbound HTTP call: a 2xx response with a parseable JSON
body, a completed non-2xx response (on which `raise_for_status` raises
`HTTPError`), a transport failure (connection error / timeout, raised by
`requests` itself), or a 2xx response whose body fails JSON parsing
(`resp.json()` raises `ValueError`). -/
inductive FetchResult where
  | success (body : Json)
  | httpErr (status : Nat) (bodyText : String)
  | netErr (msg : String)
  | badJson (msg : String)

/-- The environment: outcome of the token POST, and outcome of a data GET as
a function of the request URL. -/
structure Upstream where
  tokenResult : FetchResult
  dataResult : String → FetchResult

/-- One outbound network call attempted by the program. -/
inductive OutCall where
  | post (url : String)
  | get (url : String)

/-- Static configuration read from the environment at startup
(`TENANT_ID`, `CLIENT_ID`, `CLIENT_SECRET`, `DATAVERSE_URL`, `TABLE_NAME`). -/
structure Config where
  tenantId : String
  clientId : String
  clientSecret : String
  dataverseUrl : String
  tableName : String

/-- A Flask response: HTTP status plus JSON body (`jsonify(...)`, status). -/
structure HttpResponse where
  status : Nat
  body : Json

/-- `str(e)` for the two exception shapes; only its presence matters. -/
def str_of_exc : PyExc → String
  | PyExc.httpError s _ => toString s ++ " Error for url"
  | PyExc.other m => m

/-- The shared `except` ladder of both handlers:
`except requests.HTTPError as e: jsonify(error, detail=e.response.text), 502`
then `except Exception as e: jsonify(error), 500`. -/
def excResponse : PyExc → HttpResponse
  | PyExc.httpError s t =>
      ⟨502, Json.obj [("error", Json.str (str_of_exc (PyExc.httpError s t))),
                      ("detail", Json.str t)]⟩
  | PyExc.other m => ⟨500, Json.obj [("error", Json.str m)]⟩

/-- Characters stripped by Python `str.strip()` (ASCII whitespace). -/
def pyIsSpace (c : Char) : Bool :=
  c == ' ' || c == '\t' || c == '\n' || c == '\r' || c == '\x0b' || c == '\x0c'

/-- Python `s.strip()`: drop whitespace from both ends. -/
def pyStrip (s : String) : String :=
  String.mk (((s.data.dropWhile pyIsSpace).reverse.dropWhile pyIsSpace).reverse)

/-- Python `query.replace("\x27", "\x27\x27")`: since the pattern is the
single character `'`, this is exactly doubling each single quote. -/
def pyReplaceQuote (s : String) : String :=
  String.join (s.data.map fun c =>
    if c == '\x27' then "\x27\x27" else String.mk [c])

/-- Python `d[k]` on the parsed token JSON: `KeyError` when the key is
missing, `TypeError` when the body is not an object. -/
def jsonIndex : Json → String → Except PyExc Json
  | Json.obj fs, k =>
      match dictGet fs k with
      | some v => Except.ok v
      | none => Except.error (PyExc.other ("KeyError: " ++ k))
  | _, _ => Except.error (PyExc.other "TypeError: not a dict")

/-- Python `d.get(k, dflt)`: default on a missing key, `AttributeError` when
the body is not an object. -/
def jsonGetD : Json → String → Json → Except PyExc Json
  | Json.obj fs, k, d => Except.ok ((dictGet fs k).getD d)
  | _, _, _ => Except.error (PyExc.other "AttributeError: no attribute get")

/-- Python `len(x)`: defined for lists, strings and dicts, `TypeError`
otherwise. -/
def pyLen : Json → Except PyExc Int
  | Json.arr xs => Except.ok (xs.length : Int)
  | Json.str s => Except.ok (s.length : Int)
  | Json.obj fs => Except.ok (fs.length : Int)
  | _ => Except.error (PyExc.other "TypeError: object has no len")

/-- The token endpoint URL built in `get_access_token`. -/
def token_url (cfg : Config) : String :=
  "https://login.microsoftonline.com/" ++ cfg.tenantId ++ "/oauth2/v2.0/token"

/-- `get_access_token()`: POST to the token endpoint, `raise_for_status`,
then `resp.json()["access_token"]`.  Returns the token JSON value or the
raised exception, with the trace of outbound calls attempted. -/
def get_access_token (cfg : Config) (up : Upstream) :
    Except PyExc Json × List OutCall :=
  let calls := [OutCall.post (token_url cfg)]
  match up.tokenResult with
  | FetchResult.success j => (jsonIndex j "access_token", calls)
  | FetchResult.httpErr s t => (Except.error (PyExc.httpError s t), calls)
  | FetchResult.netErr m => (Except.error (PyExc.other m), calls)
  | FetchResult.badJson m => (Except.error (PyExc.other m), calls)

/-- The data-query endpoint URL built in `query_dataverse`. -/
def data_url (cfg : Config) (select_cols filter_expr : String) : String :=
  cfg.dataverseUrl ++ "/api/data/v9.2/" ++ cfg.tableName
    ++ "?$select=" ++ select_cols ++ "&$filter=" ++ filter_expr ++ "&$top=50"

/-- `query_dataverse(filter_expr, select_cols)`: fetch a token, GET the
endpoint, `raise_for_status`, then `resp.json().get("value", [])`.
(The constant request headers carry no information the behaviour depends on
and are not modelled.) -/
def query_dataverse (cfg : Config) (up : Upstream)
    (filter_expr select_cols : String) : Except PyExc Json × List OutCall :=
  match get_access_token cfg up with
  | (Except.error e, calls) => (Except.error e, calls)
  | (Except.ok _token, calls) =>
    let endpoint := data_url cfg select_cols filter_expr
    let calls := calls ++ [OutCall.get endpoint]
    match up.dataResult endpoint with
    | FetchResult.success j => (jsonGetD j "value" (Json.arr []), calls)
    | FetchResult.httpErr s t => (Except.error (PyExc.httpError s t), calls)
    | FetchResult.netErr m => (Except.error (PyExc.other m), calls)
    | FetchResult.badJson m => (Except.error (PyExc.other m), calls)

/-- The column list joined into `SELECT_COLS` by `",".join([...])`. -/
def SELECT_COLS_LIST : List String := [
  "cr399_cr1e1_0003ausalesordersid",
  "cr399_cr1e1_no",
  "cr399_cr1e1_itemno",
  "cr399_cr1e1_customername",
  "cr399_cr1e1_customerno",
  "cr399_cr1e1_bincode",
  "cr399_cr1e1_externaldocumentno",
  "cr399_cr1e1_locationcode",
  "cr399_cr1e1_orderdate",
  "cr399_cr1e1_quantity",
  "cr399_cr1e1_saleinvoiceno",
  "cr399_cr1e1_salespersoncode",
  "cr399_cr1e1_shiptoaddress",
  "cr399_cr1e1_shiptoaddress2",
  "cr399_cr1e1_shiptocity",
  "cr399_cr1e1_shiptocountry",
  "cr399_cr1e1_shiptocountryregion",
  "cr399_cr1e1_shiptoname",
  "cr399_cr1e1_shiptophoneno",
  "cr399_cr1e1_shiptopostcode",
  "cr399_cr1e1_status",
  "cr399_cr1e1_totalinclvataud",
  "cr399_cr1e1_totalvataud",
  "cr399_cr1e1_trackingnumber",
  "cr399_cr1e1_type",
  "cr399_cr1e1_unitpriceincvat",
  "cr399_cr1e1_yourreference",
  "cr399_cr1e1_starshipitshipmentdate",
  "cr399_cr1e1_carriername",
  "cr399_cr1e1_carrierservice"]

/-- `SELECT_COLS = ",".join([...])`. -/
def SELECT_COLS : String := String.intercalate "," SELECT_COLS_LIST

/-- The `filter_map` dict built in `search` from the escaped query. -/
def filter_map (safe_query : String) : List (String × String) := [
  ("name", "contains(cr399_cr1e1_no,\x27" ++ safe_query ++ "\x27)"),
  ("external",
    "contains(cr399_cr1e1_externaldocumentno,\x27" ++ safe_query ++ "\x27)"),
  ("reference",
    "contains(cr399_cr1e1_yourreference,\x27" ++ safe_query ++ "\x27)")]

/-- `filter_map.get(search_by, filter_map["name"])` applied to the escaped
query; the fallback is the `name` entry of `filter_map`. -/
def filter_expr_of (query search_by : String) : String :=
  let safe_query := pyReplaceQuote query
  match dictGet (filter_map safe_query) search_by with
  | some e => e
  | none => "contains(cr399_cr1e1_no,\x27" ++ safe_query ++ "\x27)"

/-- Incoming query-string parameters of a request. -/
structure Request where
  args : List (String × String)

/-- `request.args.get(k, dflt)`. -/
def argD (req : Request) (k d : String) : String :=
  (dictGet req.args k).getD d

/-- The `/api/search` handler. -/
def search (cfg : Config) (up : Upstream) (req : Request) :
    HttpResponse × List OutCall :=
  let query := pyStrip (argD req "q" "")
  let search_by := argD req "by" "name"
  if query = "" then
    (⟨400, Json.obj [("error", Json.str "Query parameter \x27q\x27 is required.")]⟩, [])
  else
    let filter_expr := filter_expr_of query search_by
    match query_dataverse cfg up filter_expr SELECT_COLS with
    | (Except.ok records, calls) =>
      match pyLen records with
      | Except.ok n =>
          (⟨200, Json.obj [("data", records), ("count", Json.num n)]⟩, calls)
      | Except.error e => (excResponse e, calls)
    | (Except.error e, calls) => (excResponse e, calls)

/-- The single-order endpoint URL built in `get_order`. -/
def order_url (cfg : Config) (order_id : String) : String :=
  cfg.dataverseUrl ++ "/api/data/v9.2/" ++ cfg.tableName
    ++ "(" ++ order_id ++ ")?$select=" ++ SELECT_COLS

/-- The `/api/order/<order_id>` handler. -/
def get_order (cfg : Config) (up : Upstream) (order_id : String) :
    HttpResponse × List OutCall :=
  match get_access_token cfg up with
  | (Except.error e, calls) => (excResponse e, calls)
  | (Except.ok _token, calls) =>
    let url := order_url cfg order_id
    let calls := calls ++ [OutCall.get url]
    match up.dataResult url with
    | FetchResult.success j => (⟨200, j⟩, calls)
    | FetchResult.httpErr s t => (excResponse (PyExc.httpError s t), calls)
    | FetchResult.netErr m => (excResponse (PyExc.other m), calls)
    | FetchResult.badJson m => (excResponse (PyExc.other m), calls)

/-- The `/health` handler. -/
def health : HttpResponse × List OutCall :=
  (⟨200, Json.obj [("status", Json.str "ok")]⟩, [])


/-! ### Evaluation lemmas for the token fetch, the data query and the handlers -/

theorem gat_httpErr (cfg : Config) (up : Upstream) (s : Nat) (t : String)
    (h : up.tokenResult = FetchResult.httpErr s t) :
    get_access_token cfg up =
      (Except.error (PyExc.httpError s t), [OutCall.post (token_url cfg)]) := by
  simp [get_access_token, h]

theorem gat_netErr (cfg : Config) (up : Upstream) (m : String)
    (h : up.tokenResult = FetchResult.netErr m) :
    get_access_token cfg up =
      (Except.error (PyExc.other m), [OutCall.post (token_url cfg)]) := by
  simp [get_access_token, h]

theorem gat_badJson (cfg : Config) (up : Upstream) (m : String)
    (h : up.tokenResult = FetchResult.badJson m) :
    get_access_token cfg up =
      (Except.error (PyExc.other m), [OutCall.post (token_url cfg)]) := by
  simp [get_access_token, h]

theorem gat_success (cfg : Config) (up : Upstream) (j : Json)
    (h : up.tokenResult = FetchResult.success j) :
    get_access_token cfg up =
      (jsonIndex j "access_token", [OutCall.post (token_url cfg)]) := by
  simp [get_access_token, h]

theorem qd_token_err (cfg : Config) (up : Upstream) (fe sc : String) (e : PyExc)
    (h : get_access_token cfg up = (Except.error e, [OutCall.post (token_url cfg)])) :
    query_dataverse cfg up fe sc =
      (Except.error e, [OutCall.post (token_url cfg)]) := by
  simp [query_dataverse, h]

theorem qd_data_success (cfg : Config) (up : Upstream) (fe sc : String)
    (j tok b : Json)
    (h1 : up.tokenResult = FetchResult.success j)
    (h2 : jsonIndex j "access_token" = Except.ok tok)
    (hd : up.dataResult (data_url cfg sc fe) = FetchResult.success b) :
    query_dataverse cfg up fe sc =
      (jsonGetD b "value" (Json.arr []),
       [OutCall.post (token_url cfg), OutCall.get (data_url cfg sc fe)]) := by
  simp [query_dataverse, get_access_token, h1, h2, hd]

theorem qd_data_httpErr (cfg : Config) (up : Upstream) (fe sc : String)
    (j tok : Json) (s : Nat) (t : String)
    (h1 : up.tokenResult = FetchResult.success j)
    (h2 : jsonIndex j "access_token" = Except.ok tok)
    (hd : up.dataResult (data_url cfg sc fe) = FetchResult.httpErr s t) :
    query_dataverse cfg up fe sc =
      (Except.error (PyExc.httpError s t),
       [OutCall.post (token_url cfg), OutCall.get (data_url cfg sc fe)]) := by
  simp [query_dataverse, get_access_token, h1, h2, hd]

theorem qd_data_netErr (cfg : Config) (up : Upstream) (fe sc : String)
    (j tok : Json) (m : String)
    (h1 : up.tokenResult = FetchResult.success j)
    (h2 : jsonIndex j "access_token" = Except.ok tok)
    (hd : up.dataResult (data_url cfg sc fe) = FetchResult.netErr m) :
    query_dataverse cfg up fe sc =
      (Except.error (PyExc.other m),
       [OutCall.post (token_url cfg), OutCall.get (data_url cfg sc fe)]) := by
  simp [query_dataverse, get_access_token, h1, h2, hd]

theorem qd_data_badJson (cfg : Config) (up : Upstream) (fe sc : String)
    (j tok : Json) (m : String)
    (h1 : up.tokenResult = FetchResult.success j)
    (h2 : jsonIndex j "access_token" = Except.ok tok)
    (hd : up.dataResult (data_url cfg sc fe) = FetchResult.badJson m) :
    query_dataverse cfg up fe sc =
      (Except.error (PyExc.other m),
       [OutCall.post (token_url cfg), OutCall.get (data_url cfg sc fe)]) := by
  simp [query_dataverse, get_access_token, h1, h2, hd]

theorem search_err (cfg : Config) (up : Upstream) (req : Request)
    (e : PyExc) (calls : List OutCall)
    (hq : ¬ pyStrip (argD req "q" "") = "")
    (h : query_dataverse cfg up
          (filter_expr_of (pyStrip (argD req "q" "")) (argD req "by" "name"))
          SELECT_COLS = (Except.error e, calls)) :
    search cfg up req = (excResponse e, calls) := by
  simp [search, hq, h]

theorem search_ok (cfg : Config) (up : Upstream) (req : Request)
    (records : Json) (calls : List OutCall) (n : Int)
    (hq : ¬ pyStrip (argD req "q" "") = "")
    (h : query_dataverse cfg up
          (filter_expr_of (pyStrip (argD req "q" "")) (argD req "by" "name"))
          SELECT_COLS = (Except.ok records, calls))
    (hn : pyLen records = Except.ok n) :
    search cfg up req =
      (⟨200, Json.obj [("data", records), ("count", Json.num n)]⟩, calls) := by
  simp [search, hq, h, hn]

theorem search_len_err (cfg : Config) (up : Upstream) (req : Request)
    (records : Json) (calls : List OutCall) (e : PyExc)
    (hq : ¬ pyStrip (argD req "q" "") = "")
    (h : query_dataverse cfg up
          (filter_expr_of (pyStrip (argD req "q" "")) (argD req "by" "name"))
          SELECT_COLS = (Except.ok records, calls))
    (hn : pyLen records = Except.error e) :
    search cfg up req = (excResponse e, calls) := by
  simp [search, hq, h, hn]

theorem go_token_err (cfg : Config) (up : Upstream) (oid : String) (e : PyExc)
    (h : get_access_token cfg up = (Except.error e, [OutCall.post (token_url cfg)])) :
    get_order cfg up oid = (excResponse e, [OutCall.post (token_url cfg)]) := by
  simp [get_order, h]

theorem go_data_success (cfg : Config) (up : Upstream) (oid : String)
    (j tok b : Json)
    (h1 : up.tokenResult = FetchResult.success j)
    (h2 : jsonIndex j "access_token" = Except.ok tok)
    (hd : up.dataResult (order_url cfg oid) = FetchResult.success b) :
    get_order cfg up oid =
      (⟨200, b⟩, [OutCall.post (token_url cfg), OutCall.get (order_url cfg oid)]) := by
  simp [get_order, get_access_token, h1, h2, hd]

theorem go_data_httpErr (cfg : Config) (up : Upstream) (oid : String)
    (j tok : Json) (s : Nat) (t : String)
    (h1 : up.tokenResult = FetchResult.success j)
    (h2 : jsonIndex j "access_token" = Except.ok tok)
    (hd : up.dataResult (order_url cfg oid) = FetchResult.httpErr s t) :
    get_order cfg up oid =
      (excResponse (PyExc.httpError s t),
       [OutCall.post (token_url cfg), OutCall.get (order_url cfg oid)]) := by
  simp [get_order, get_access_token, h1, h2, hd]

theorem go_data_netErr (cfg : Config) (up : Upstream) (oid : String)
    (j tok : Json) (m : String)
    (h1 : up.tokenResult = FetchResult.success j)
    (h2 : jsonIndex j "access_token" = Except.ok tok)
    (hd : up.dataResult (order_url cfg oid) = FetchResult.netErr m) :
    get_order cfg up oid =
      (excResponse (PyExc.other m),
       [OutCall.post (token_url cfg), OutCall.get (order_url cfg oid)]) := by
  simp [get_order, get_access_token, h1, h2, hd]

theorem go_data_badJson (cfg : Config) (up : Upstream) (oid : String)
    (j tok : Json) (m : String)
    (h1 : up.tokenResult = FetchResult.success j)
    (h2 : jsonIndex j "access_token" = Except.ok tok)
    (hd : up.dataResult (order_url cfg oid) = FetchResult.badJson m) :
    get_order cfg up oid =
      (excResponse (PyExc.other m),
       [OutCall.post (token_url cfg), OutCall.get (order_url cfg oid)]) := by
  simp [get_order, get_access_token, h1, h2, hd]

/-! ### Concrete fixtures used by witness theorems -/

/-- A concrete configuration. -/
def cfg0 : Config :=
  ⟨"tenant0", "client0", "secret0", "https://org0.example", "cr399_tables"⟩

/-- An upstream in which both calls succeed and the data query returns one
row. -/
def up0 : Upstream :=
  ⟨FetchResult.success (Json.obj [("access_token", Json.str "tok0")]),
   fun _ => FetchResult.success (Json.obj [("value", Json.arr [Json.null])])⟩

/-! ### Claim theorems -/

/-- C2: whenever the `q` parameter is missing, empty or whitespace-only,
`/api/search` answers 400 with an error message, and no outbound call
(neither the token POST nor the data GET) is attempted. -/
theorem search_blank_q_400 (cfg : Config) (up : Upstream) (req : Request)
    (h : pyStrip (argD req "q" "") = "") :
    search cfg up req =
      (⟨400, Json.obj [("error",
          Json.str "Query parameter \x27q\x27 is required.")]⟩, []) := by
  simp [search, h]

theorem search_blank_q_400_witness :
    pyStrip (argD ⟨[("q", "   ")]⟩ "q" "") = "" ∧
    search cfg0 up0 ⟨[("q", "   ")]⟩ =
      (⟨400, Json.obj [("error",
          Json.str "Query parameter \x27q\x27 is required.")]⟩, []) :=
  ⟨rfl, search_blank_q_400 cfg0 up0 ⟨[("q", "   ")]⟩ rfl⟩

/-- C9: `/health` answers 200 with body containing `status = "ok"`, and no
outbound call is made while handling it. -/
theorem health_ok_no_calls :
    health.1.status = 200 ∧
    health.1.body = Json.obj [("status", Json.str "ok")] ∧
    health.2 = [] :=
  ⟨rfl, rfl, rfl⟩

theorem qd_get_url (cfg : Config) (up : Upstream) (fe sc url : String)
    (h : OutCall.get url ∈ (query_dataverse cfg up fe sc).2) :
    url = data_url cfg sc fe := by
  rcases up with ⟨tok, dat⟩
  cases tok with
  | success j =>
      cases hidx : jsonIndex j "access_token" with
      | error e => simp [query_dataverse, get_access_token, hidx] at h
      | ok v =>
          cases hdat : dat (data_url cfg sc fe) with
          | success b =>
              cases hval : jsonGetD b "value" (Json.arr []) with
              | ok w =>
                  simp [query_dataverse, get_access_token, hidx, hdat, hval] at h
                  exact h
              | error e =>
                  simp [query_dataverse, get_access_token, hidx, hdat, hval] at h
                  exact h
          | httpErr s t =>
              simp [query_dataverse, get_access_token, hidx, hdat] at h
              exact h
          | netErr m =>
              simp [query_dataverse, get_access_token, hidx, hdat] at h
              exact h
          | badJson m =>
              simp [query_dataverse, get_access_token, hidx, hdat] at h
              exact h
  | httpErr s t => simp [query_dataverse, get_access_token] at h
  | netErr m => simp [query_dataverse, get_access_token] at h
  | badJson m => simp [query_dataverse, get_access_token] at h

theorem search_get_url (cfg : Config) (up : Upstream) (req : Request) (url : String)
    (h : OutCall.get url ∈ (search cfg up req).2) :
    url = data_url cfg SELECT_COLS
      (filter_expr_of (pyStrip (argD req "q" "")) (argD req "by" "name")) := by
  by_cases hq0 : pyStrip (argD req "q" "") = ""
  · simp [search, hq0] at h
  · rcases hqd : query_dataverse cfg up
        (filter_expr_of (pyStrip (argD req "q" "")) (argD req "by" "name"))
        SELECT_COLS with ⟨res, calls⟩
    have hcalls : (search cfg up req).2 = calls := by
      cases res with
      | ok records =>
          cases hlen : pyLen records with
          | ok n => rw [search_ok cfg up req records calls n hq0 hqd hlen]
          | error e => rw [search_len_err cfg up req records calls e hq0 hqd hlen]
      | error e => rw [search_err cfg up req e calls hq0 hqd]
    rw [hcalls] at h
    exact qd_get_url cfg up _ SELECT_COLS url (by rw [hqd]; exact h)

theorem search_congr (cfg : Config) (up : Upstream) (r1 r2 : Request)
    (hq : argD r1 "q" "" = argD r2 "q" "")
    (hfe : filter_expr_of (pyStrip (argD r1 "q" "")) (argD r1 "by" "name")
         = filter_expr_of (pyStrip (argD r2 "q" "")) (argD r2 "by" "name")) :
    search cfg up r1 = search cfg up r2 := by
  simp only [search]
  rw [hfe, hq]

/-- C1: for every trimmed non-empty query `q` and recognized discriminator,
the filter expression is exactly one `contains(field,\x27escaped\x27)` clause over
the mapped column with each single quote of `q` doubled, and any data GET
issued by `/api/search` targets the URL embedding exactly that filter. -/
theorem search_filter_clause (cfg : Config) (up : Upstream) (q by_ : String)
    (hq : pyStrip q = q) ( hne : q ≠ "")
    (hby : by_ = "name" ∨ by_ = "external" ∨ by_ = "reference") :
    filter_expr_of q by_ =
      "contains(" ++
        (if by_ = "name" then "cr399_cr1e1_no"
         else if by_ = "external" then "cr399_cr1e1_externaldocumentno"
         else "cr399_cr1e1_yourreference") ++
        ",\x27" ++ pyReplaceQuote q ++ "\x27)"
    ∧ ∀ url, OutCall.get url ∈ (search cfg up ⟨[("q", q), ("by", by_)]⟩).2 →
        url = data_url cfg SELECT_COLS (filter_expr_of q by_) := by
  have hx : argD ⟨[("q", q), ("by", by_)]⟩ "q" "" = q := rfl
  have hy : argD ⟨[("q", q), ("by", by_)]⟩ "by" "name" = by_ := rfl
  constructor
  · rcases hby with h | h | h <;> subst h <;> simp <;> rfl
  · intro url hurl
    have h2 := search_get_url cfg up ⟨[("q", q), ("by", by_)]⟩ url hurl
    rw [hx, hy, hq] at h2
    exact h2

theorem search_filter_clause_witness :
    pyStrip "abc" = "abc" ∧ ("abc" : String) ≠ "" ∧
    (("external" : String) = "name" ∨ ("external" : String) = "external" ∨
      ("external" : String) = "reference") ∧
    (filter_expr_of "abc" "external" =
      "contains(" ++
        (if ("external" : String) = "name" then "cr399_cr1e1_no"
         else if ("external" : String) = "external" then "cr399_cr1e1_externaldocumentno"
         else "cr399_cr1e1_yourreference") ++
        ",\x27" ++ pyReplaceQuote "abc" ++ "\x27)"
    ∧ ∀ url, OutCall.get url ∈ (search cfg0 up0 ⟨[("q", "abc"), ("by", "external")]⟩).2 →
        url = data_url cfg0 SELECT_COLS (filter_expr_of "abc" "external")) :=
  ⟨rfl, by decide, Or.inr (Or.inl rfl),
   search_filter_clause cfg0 up0 "abc" "external" rfl (by decide)
     (Or.inr (Or.inl rfl))⟩

/-- C5: an unrecognized (or missing) `by` value silently falls back to the
`name` filter mapping: the filter expression and the whole response agree
with the `by=name` request, so no error is returned for the value. -/
theorem search_unrecognized_by_defaults (cfg : Config) (up : Upstream) (q by_ : String)
    (h1 : by_ ≠ "name") (h2 : by_ ≠ "external") (h3 : by_ ≠ "reference") :
    filter_expr_of q by_ = filter_expr_of q "name"
    ∧ search cfg up ⟨[("q", q), ("by", by_)]⟩ =
        search cfg up ⟨[("q", q), ("by", "name")]⟩
    ∧ search cfg up ⟨[("q", q)]⟩ = search cfg up ⟨[("q", q), ("by", "name")]⟩ := by
  have e1 : ("name" == by_) = false := beq_eq_false_iff_ne.mpr (Ne.symm h1)
  have e2 : ("external" == by_) = false := beq_eq_false_iff_ne.mpr (Ne.symm h2)
  have e3 : ("reference" == by_) = false := beq_eq_false_iff_ne.mpr (Ne.symm h3)
  have hfe : ∀ s : String, filter_expr_of s by_ = filter_expr_of s "name" := by
    intro s
    simp [filter_expr_of, filter_map, dictGet, List.find?, e1, e2, e3]
  refine ⟨hfe q, ?_, ?_⟩
  · exact search_congr cfg up _ _ rfl (hfe (pyStrip q))
  · exact search_congr cfg up _ _ rfl rfl

theorem search_unrecognized_by_defaults_witness :
    ("zzz" : String) ≠ "name" ∧ ("zzz" : String) ≠ "external" ∧
    ("zzz" : String) ≠ "reference" ∧
    (filter_expr_of "abc" "zzz" = filter_expr_of "abc" "name"
    ∧ search cfg0 up0 ⟨[("q", "abc"), ("by", "zzz")]⟩ =
        search cfg0 up0 ⟨[("q", "abc"), ("by", "name")]⟩
    ∧ search cfg0 up0 ⟨[("q", "abc")]⟩ =
        search cfg0 up0 ⟨[("q", "abc"), ("by", "name")]⟩) :=
  ⟨by decide, by decide, by decide,
   search_unrecognized_by_defaults cfg0 up0 "abc" "zzz"
     (by decide) (by decide) (by decide)⟩

/-- A 502 response carrying some error message and the given upstream body
text in its `detail` field. -/
def is502detail (r : HttpResponse) (t : String) : Prop :=
  r.status = 502 ∧ (jsonLookup r.body "error").isSome = true ∧
  jsonLookup r.body "detail" = some (Json.str t)

/-- A 500 response carrying an error message and no `detail` field. -/
def is500plain (r : HttpResponse) : Prop :=
  r.status = 500 ∧ (jsonLookup r.body "error").isSome = true ∧
  jsonLookup r.body "detail" = none

/-- A call outcome that is a failure other than a completed non-2xx
response: transport failure (connection error / timeout) or a 2xx body
that fails JSON parsing. -/
def otherFail (r : FetchResult) (m : String) : Prop :=
  r = FetchResult.netErr m ∨ r = FetchResult.badJson m

/-- An upstream whose token call fails with a completed non-2xx response. -/
def upTokErr : Upstream :=
  ⟨FetchResult.httpErr 401 "denied",
   fun _ => FetchResult.success (Json.obj [("value", Json.arr [])])⟩

/-- An upstream whose token call fails with a transport error. -/
def upNetErr : Upstream :=
  ⟨FetchResult.netErr "timeout",
   fun _ => FetchResult.success (Json.obj [("value", Json.arr [])])⟩

/-- C3: a completed non-2xx response from either the auth call or the data
call makes `/api/search` (when it reaches the network) and `/api/order/<id>`
answer 502 with an error message and a `detail` field holding the upstream
response body text. -/
theorem upstream_httpErr_502 (cfg : Config) (up : Upstream) (req : Request)
    (oid : String) (s : Nat) (t : String) :
    (up.tokenResult = FetchResult.httpErr s t →
      (¬ pyStrip (argD req "q" "") = "" → is502detail (search cfg up req).1 t)
      ∧ is502detail (get_order cfg up oid).1 t)
    ∧ (∀ j tok, up.tokenResult = FetchResult.success j →
        jsonIndex j "access_token" = Except.ok tok →
        ((up.dataResult (data_url cfg SELECT_COLS
            (filter_expr_of (pyStrip (argD req "q" "")) (argD req "by" "name")))
            = FetchResult.httpErr s t →
          ¬ pyStrip (argD req "q" "") = "" → is502detail (search cfg up req).1 t)
        ∧ (up.dataResult (order_url cfg oid) = FetchResult.httpErr s t →
            is502detail (get_order cfg up oid).1 t))) := by
  constructor
  · intro htok
    have hga := gat_httpErr cfg up s t htok
    constructor
    · intro hq
      rw [search_err cfg up req (PyExc.httpError s t) [OutCall.post (token_url cfg)]
            hq (qd_token_err cfg up _ SELECT_COLS _ hga)]
      exact ⟨rfl, rfl, rfl⟩
    · rw [go_token_err cfg up oid (PyExc.httpError s t) hga]
      exact ⟨rfl, rfl, rfl⟩
  · intro j tok htok hidx
    constructor
    · intro hd hq
      rw [search_err cfg up req (PyExc.httpError s t) _ hq
            (qd_data_httpErr cfg up _ SELECT_COLS j tok s t htok hidx hd)]
      exact ⟨rfl, rfl, rfl⟩
    · intro hd
      rw [go_data_httpErr cfg up oid j tok s t htok hidx hd]
      exact ⟨rfl, rfl, rfl⟩

theorem upstream_httpErr_502_witness :
    upTokErr.tokenResult = FetchResult.httpErr 401 "denied" ∧
    ¬ pyStrip (argD ⟨[("q", "abc")]⟩ "q" "") = "" ∧
    is502detail (search cfg0 upTokErr ⟨[("q", "abc")]⟩).1 "denied" ∧
    is502detail (get_order cfg0 upTokErr "id1").1 "denied" :=
  ⟨rfl, by decide,
   ((upstream_httpErr_502 cfg0 upTokErr ⟨[("q", "abc")]⟩ "id1" 401 "denied").1
      rfl).1 (by decide),
   ((upstream_httpErr_502 cfg0 upTokErr ⟨[("q", "abc")]⟩ "id1" 401 "denied").1
      rfl).2⟩

/-- C4: any failure of the auth or data call other than a completed non-2xx
response (transport failure, timeout, malformed JSON body) makes
`/api/search` (when it reaches the network) and `/api/order/<id>` answer 500
with an error message and no `detail` field. -/
theorem upstream_other_500 (cfg : Config) (up : Upstream) (req : Request)
    (oid : String) (m : String) :
    (otherFail up.tokenResult m →
      (¬ pyStrip (argD req "q" "") = "" → is500plain (search cfg up req).1)
      ∧ is500plain (get_order cfg up oid).1)
    ∧ (∀ j tok, up.tokenResult = FetchResult.success j →
        jsonIndex j "access_token" = Except.ok tok →
        ((otherFail (up.dataResult (data_url cfg SELECT_COLS
            (filter_expr_of (pyStrip (argD req "q" "")) (argD req "by" "name")))) m →
          ¬ pyStrip (argD req "q" "") = "" → is500plain (search cfg up req).1)
        ∧ (otherFail (up.dataResult (order_url cfg oid)) m →
            is500plain (get_order cfg up oid).1))) := by
  constructor
  · intro htok
    have hga : get_access_token cfg up =
        (Except.error (PyExc.other m), [OutCall.post (token_url cfg)]) := by
      rcases htok with h | h
      · exact gat_netErr cfg up m h
      · exact gat_badJson cfg up m h
    constructor
    · intro hq
      rw [search_err cfg up req (PyExc.other m) [OutCall.post (token_url cfg)]
            hq (qd_token_err cfg up _ SELECT_COLS _ hga)]
      exact ⟨rfl, rfl, rfl⟩
    · rw [go_token_err cfg up oid (PyExc.other m) hga]
      exact ⟨rfl, rfl, rfl⟩
  · intro j tok htok hidx
    constructor
    · intro hd hq
      have hqd : query_dataverse cfg up
          (filter_expr_of (pyStrip (argD req "q" "")) (argD req "by" "name"))
          SELECT_COLS =
          (Except.error (PyExc.other m),
           [OutCall.post (token_url cfg),
            OutCall.get (data_url cfg SELECT_COLS
              (filter_expr_of (pyStrip (argD req "q" "")) (argD req "by" "name")))]) := by
        rcases hd with h | h
        · exact qd_data_netErr cfg up _ SELECT_COLS j tok m htok hidx h
        · exact qd_data_badJson cfg up _ SELECT_COLS j tok m htok hidx h
      rw [search_err cfg up req (PyExc.other m) _ hq hqd]
      exact ⟨rfl, rfl, rfl⟩
    · intro hd
      rcases hd with h | h
      · rw [go_data_netErr cfg up oid j tok m htok hidx h]
        exact ⟨rfl, rfl, rfl⟩
      · rw [go_data_badJson cfg up oid j tok m htok hidx h]
        exact ⟨rfl, rfl, rfl⟩

theorem upstream_other_500_witness :
    otherFail upNetErr.tokenResult "timeout" ∧
    ¬ pyStrip (argD ⟨[("q", "abc")]⟩ "q" "") = "" ∧
    is500plain (search cfg0 upNetErr ⟨[("q", "abc")]⟩).1 ∧
    is500plain (get_order cfg0 upNetErr "id1").1 :=
  ⟨Or.inl rfl, by decide,
   ((upstream_other_500 cfg0 upNetErr ⟨[("q", "abc")]⟩ "id1" "timeout").1
      (Or.inl rfl)).1 (by decide),
   ((upstream_other_500 cfg0 upNetErr ⟨[("q", "abc")]⟩ "id1" "timeout").1
      (Or.inl rfl)).2⟩

/-- C7 counterexample: for `q=O\x27Brien`, `by=reference` the code builds the
clause over column `cr399_cr1e1_yourreference`, not the claimed
`cr1e1_yourreference`. -/
theorem search_example_field_mismatch :
    filter_expr_of (pyStrip "O\x27Brien") "reference" =
      "contains(cr399_cr1e1_yourreference,\x27O\x27\x27Brien\x27)"
    ∧ filter_expr_of (pyStrip "O\x27Brien") "reference" ≠
      "contains(cr1e1_yourreference,\x27O\x27\x27Brien\x27)" :=
  ⟨rfl, by decide⟩

/-- C7 (amended): `GET /api/search?q=O\x27Brien&by=reference` produces the
filter clause `contains(cr399_cr1e1_yourreference,\x27O\x27\x27Brien\x27)` (quote
doubled), and with an upstream returning two rows the response is 200 with
`data = [row1, row2]` and `count = 2`. -/
theorem search_example_obrien (cfg : Config) (up : Upstream) (j tok r1 r2 : Json)
    (htok : up.tokenResult = FetchResult.success j)
    (hidx : jsonIndex j "access_token" = Except.ok tok)
    (hdat : up.dataResult (data_url cfg SELECT_COLS
        "contains(cr399_cr1e1_yourreference,\x27O\x27\x27Brien\x27)")
        = FetchResult.success (Json.obj [("value", Json.arr [r1, r2])])) :
    filter_expr_of (pyStrip "O\x27Brien") "reference" =
      "contains(cr399_cr1e1_yourreference,\x27O\x27\x27Brien\x27)"
    ∧ (search cfg up ⟨[("q", "O\x27Brien"), ("by", "reference")]⟩).1 =
      ⟨200, Json.obj [("data", Json.arr [r1, r2]), ("count", Json.num 2)]⟩ := by
  refine ⟨rfl, ?_⟩
  have hqd := qd_data_success cfg up
      "contains(cr399_cr1e1_yourreference,\x27O\x27\x27Brien\x27)" SELECT_COLS
      j tok (Json.obj [("value", Json.arr [r1, r2])]) htok hidx hdat
  have hqd2 : query_dataverse cfg up
      (filter_expr_of
        (pyStrip (argD ⟨[("q", "O\x27Brien"), ("by", "reference")]⟩ "q" ""))
        (argD ⟨[("q", "O\x27Brien"), ("by", "reference")]⟩ "by" "name"))
      SELECT_COLS =
      (Except.ok (Json.arr [r1, r2]),
       [OutCall.post (token_url cfg),
        OutCall.get (data_url cfg SELECT_COLS
          "contains(cr399_cr1e1_yourreference,\x27O\x27\x27Brien\x27)")]) := hqd
  have hs := search_ok cfg up ⟨[("q", "O\x27Brien"), ("by", "reference")]⟩
      (Json.arr [r1, r2]) _ 2 (by decide) hqd2 rfl
  rw [hs]

def up2rows : Upstream :=
  ⟨FetchResult.success (Json.obj [("access_token", Json.str "tok0")]),
   fun _ => FetchResult.success
     (Json.obj [("value", Json.arr [Json.boolean true, Json.boolean false])])⟩

theorem search_example_obrien_witness :
    up2rows.tokenResult = FetchResult.success
      (Json.obj [("access_token", Json.str "tok0")]) ∧
    (filter_expr_of (pyStrip "O\x27Brien") "reference" =
      "contains(cr399_cr1e1_yourreference,\x27O\x27\x27Brien\x27)"
    ∧ (search cfg0 up2rows ⟨[("q", "O\x27Brien"), ("by", "reference")]⟩).1 =
      ⟨200, Json.obj [("data", Json.arr [Json.boolean true, Json.boolean false]),
                      ("count", Json.num 2)]⟩) :=
  ⟨rfl, search_example_obrien cfg0 up2rows
    (Json.obj [("access_token", Json.str "tok0")]) (Json.str "tok0")
    (Json.boolean true) (Json.boolean false) rfl rfl rfl⟩

/-- C8 counterexample: the fixed select list has 30 columns, not the
claimed 29. -/
theorem select_cols_not_29 :
    SELECT_COLS_LIST.length = 30 ∧ ¬ SELECT_COLS_LIST.length = 29 := by
  decide

/-- C8 (amended): every `/api/search` request passing input validation
queries with the fixed select list of exactly 30 columns: any data GET it
issues carries `$select=SELECT_COLS`, and once a token is obtained that GET
is in fact issued. -/
theorem search_select_cols (cfg : Config) (up : Upstream) (req : Request)
    (hq : ¬ pyStrip (argD req "q" "") = "") :
    SELECT_COLS = String.intercalate "," SELECT_COLS_LIST
    ∧ SELECT_COLS_LIST.length = 30
    ∧ (∀ url, OutCall.get url ∈ (search cfg up req).2 →
        url = data_url cfg SELECT_COLS
          (filter_expr_of (pyStrip (argD req "q" "")) (argD req "by" "name")))
    ∧ (∀ j tok, up.tokenResult = FetchResult.success j →
        jsonIndex j "access_token" = Except.ok tok →
        OutCall.get (data_url cfg SELECT_COLS
          (filter_expr_of (pyStrip (argD req "q" "")) (argD req "by" "name")))
          ∈ (search cfg up req).2) := by
  refine ⟨rfl, by decide, fun url h => search_get_url cfg up req url h, ?_⟩
  intro j tok htok hidx
  cases hdat : up.dataResult (data_url cfg SELECT_COLS
      (filter_expr_of (pyStrip (argD req "q" "")) (argD req "by" "name"))) with
  | success b =>
      have hqd := qd_data_success cfg up
          (filter_expr_of (pyStrip (argD req "q" "")) (argD req "by" "name"))
          SELECT_COLS j tok b htok hidx hdat
      cases hval : jsonGetD b "value" (Json.arr []) with
      | ok v =>
          rw [hval] at hqd
          cases hlen : pyLen v with
          | ok n => rw [search_ok cfg up req v _ n hq hqd hlen]; simp
          | error e => rw [search_len_err cfg up req v _ e hq hqd hlen]; simp
      | error e =>
          rw [hval] at hqd
          rw [search_err cfg up req e _ hq hqd]; simp
  | httpErr s t =>
      rw [search_err cfg up req (PyExc.httpError s t) _ hq
          (qd_data_httpErr cfg up _ SELECT_COLS j tok s t htok hidx hdat)]
      simp
  | netErr m =>
      rw [search_err cfg up req (PyExc.other m) _ hq
          (qd_data_netErr cfg up _ SELECT_COLS j tok m htok hidx hdat)]
      simp
  | badJson m =>
      rw [search_err cfg up req (PyExc.other m) _ hq
          (qd_data_badJson cfg up _ SELECT_COLS j tok m htok hidx hdat)]
      simp

theorem search_select_cols_witness :
    (¬ pyStrip (argD ⟨[("q", "abc")]⟩ "q" "") = "") ∧
    (SELECT_COLS = String.intercalate "," SELECT_COLS_LIST
    ∧ SELECT_COLS_LIST.length = 30
    ∧ (∀ url, OutCall.get url ∈ (search cfg0 up0 ⟨[("q", "abc")]⟩).2 →
        url = data_url cfg0 SELECT_COLS
          (filter_expr_of (pyStrip (argD ⟨[("q", "abc")]⟩ "q" ""))
            (argD ⟨[("q", "abc")]⟩ "by" "name")))
    ∧ (∀ j tok, up0.tokenResult = FetchResult.success j →
        jsonIndex j "access_token" = Except.ok tok →
        OutCall.get (data_url cfg0 SELECT_COLS
          (filter_expr_of (pyStrip (argD ⟨[("q", "abc")]⟩ "q" ""))
            (argD ⟨[("q", "abc")]⟩ "by" "name")))
          ∈ (search cfg0 up0 ⟨[("q", "abc")]⟩).2)) :=
  ⟨by decide, search_select_cols cfg0 up0 ⟨[("q", "abc")]⟩ (by decide)⟩


/-- C6: when the data call succeeds with a `value` array and the upstream
honors the `$top=50` cap carried by every data-query URL, the `/api/search`
response is 200 with `count` equal to the length of `data`, `data` has at
most 50 rows, and the outbound URL indeed ends in `&$top=50`. -/
theorem search_count_cap (cfg : Config) (up : Upstream) (req : Request)
    (j tok b : Json) (rows : List Json)
    (hq : ¬ pyStrip (argD req "q" "") = "")
    (htok : up.tokenResult = FetchResult.success j)
    (hidx : jsonIndex j "access_token" = Except.ok tok)
    (hdat : up.dataResult (data_url cfg SELECT_COLS
        (filter_expr_of (pyStrip (argD req "q" "")) (argD req "by" "name")))
        = FetchResult.success b)
    (hval : jsonGetD b "value" (Json.arr []) = Except.ok (Json.arr rows))
    (hcap : ∀ url, (∃ p, url = p ++ "&$top=50") →
        ∀ c rs, up.dataResult url = FetchResult.success c →
          jsonGetD c "value" (Json.arr []) = Except.ok (Json.arr rs) →
          rs.length ≤ 50) :
    (search cfg up req).1 =
      ⟨200, Json.obj [("data", Json.arr rows),
                      ("count", Json.num (rows.length : Int))]⟩
    ∧ rows.length ≤ 50
    ∧ ∃ p, data_url cfg SELECT_COLS
        (filter_expr_of (pyStrip (argD req "q" "")) (argD req "by" "name"))
        = p ++ "&$top=50" := by
  have hurl : ∃ p, data_url cfg SELECT_COLS
      (filter_expr_of (pyStrip (argD req "q" "")) (argD req "by" "name"))
      = p ++ "&$top=50" :=
    ⟨cfg.dataverseUrl ++ "/api/data/v9.2/" ++ cfg.tableName ++ "?$select="
      ++ SELECT_COLS ++ "&$filter="
      ++ filter_expr_of (pyStrip (argD req "q" "")) (argD req "by" "name"), rfl⟩
  have hqd := qd_data_success cfg up
      (filter_expr_of (pyStrip (argD req "q" "")) (argD req "by" "name"))
      SELECT_COLS j tok b htok hidx hdat
  rw [hval] at hqd
  have hs := search_ok cfg up req (Json.arr rows) _ (rows.length : Int) hq hqd rfl
  exact ⟨by rw [hs], hcap _ hurl b rows hdat hval, hurl⟩

theorem search_count_cap_witness :
    (¬ pyStrip (argD ⟨[("q", "abc")]⟩ "q" "") = "") ∧
    ((search cfg0 up0 ⟨[("q", "abc")]⟩).1 =
      ⟨200, Json.obj [("data", Json.arr [Json.null]),
                      ("count", Json.num (([Json.null] : List Json).length : Int))]⟩
    ∧ ([Json.null] : List Json).length ≤ 50
    ∧ ∃ p, data_url cfg0 SELECT_COLS
        (filter_expr_of (pyStrip (argD ⟨[("q", "abc")]⟩ "q" ""))
          (argD ⟨[("q", "abc")]⟩ "by" "name"))
        = p ++ "&$top=50") :=
  ⟨by decide,
   search_count_cap cfg0 up0 ⟨[("q", "abc")]⟩
     (Json.obj [("access_token", Json.str "tok0")]) (Json.str "tok0")
     (Json.obj [("value", Json.arr [Json.null])]) [Json.null]
     (by decide) rfl rfl rfl rfl
     (by
       intro url hp c rs hc hv
       have hc2 : FetchResult.success (Json.obj [("value", Json.arr [Json.null])])
           = FetchResult.success c := hc
       injection hc2 with hb
       subst hb
       have hv2 : (Except.ok (Json.arr [Json.null]) : Except PyExc Json)
           = Except.ok (Json.arr rs) := hv
       injection hv2 with h2
       injection h2 with h3
       subst h3
       decide)⟩

theorem jsonIndex_error_other (j : Json) (k : String) (e : PyExc)
    (h : jsonIndex j k = Except.error e) : ∃ m, e = PyExc.other m := by
  cases j with
  | obj fs =>
      cases hd : dictGet fs k with
      | some v => simp [jsonIndex, hd] at h
      | none => simp [jsonIndex, hd] at h; exact ⟨_, h.symm⟩
  | arr xs => simp [jsonIndex] at h; exact ⟨_, h.symm⟩
  | str s => simp [jsonIndex] at h; exact ⟨_, h.symm⟩
  | num n => simp [jsonIndex] at h; exact ⟨_, h.symm⟩
  | boolean b => simp [jsonIndex] at h; exact ⟨_, h.symm⟩
  | null => simp [jsonIndex] at h; exact ⟨_, h.symm⟩

theorem jsonGetD_error_other (j : Json) (k : String) (d : Json) (e : PyExc)
    (h : jsonGetD j k d = Except.error e) : ∃ m, e = PyExc.other m := by
  cases j with
  | obj fs => simp [jsonGetD] at h
  | arr xs => simp [jsonGetD] at h; exact ⟨_, h.symm⟩
  | str s => simp [jsonGetD] at h; exact ⟨_, h.symm⟩
  | num n => simp [jsonGetD] at h; exact ⟨_, h.symm⟩
  | boolean b => simp [jsonGetD] at h; exact ⟨_, h.symm⟩
  | null => simp [jsonGetD] at h; exact ⟨_, h.symm⟩

theorem pyLen_error_other (j : Json) (e : PyExc)
    (h : pyLen j = Except.error e) : ∃ m, e = PyExc.other m := by
  cases j with
  | obj fs => simp [pyLen] at h
  | arr xs => simp [pyLen] at h
  | str s => simp [pyLen] at h
  | num n => simp [pyLen] at h; exact ⟨_, h.symm⟩
  | boolean b => simp [pyLen] at h; exact ⟨_, h.symm⟩
  | null => simp [pyLen] at h; exact ⟨_, h.symm⟩


/-- C10 (implicit): the 502 handler of `/api/search` and `/api/order/<id>`
is reached only through a completed upstream non-2xx response (from the auth
call or the data call), so the caught exception always carries that
response, and the `detail` field read from it is exactly its body text. -/
theorem http_502_has_upstream (cfg : Config) (up : Upstream) (req : Request)
    (oid : String) :
    ((search cfg up req).1.status = 502 →
      ∃ s t, (up.tokenResult = FetchResult.httpErr s t ∨
              up.dataResult (data_url cfg SELECT_COLS
                (filter_expr_of (pyStrip (argD req "q" "")) (argD req "by" "name")))
                = FetchResult.httpErr s t)
        ∧ jsonLookup (search cfg up req).1.body "detail" = some (Json.str t))
    ∧ ((get_order cfg up oid).1.status = 502 →
      ∃ s t, (up.tokenResult = FetchResult.httpErr s t ∨
              up.dataResult (order_url cfg oid) = FetchResult.httpErr s t)
        ∧ jsonLookup (get_order cfg up oid).1.body "detail" = some (Json.str t)) := by
  constructor
  · intro h502
    by_cases hq : pyStrip (argD req "q" "") = ""
    · simp [search, hq] at h502
    · cases htok : up.tokenResult with
      | httpErr s t =>
          have hs := search_err cfg up req (PyExc.httpError s t) _ hq
              (qd_token_err cfg up _ SELECT_COLS _ (gat_httpErr cfg up s t htok))
          exact ⟨s, t, Or.inl rfl, by rw [hs]; rfl⟩
      | netErr m =>
          rw [search_err cfg up req (PyExc.other m) _ hq
              (qd_token_err cfg up _ SELECT_COLS _ (gat_netErr cfg up m htok))] at h502
          simp [excResponse] at h502
      | badJson m =>
          rw [search_err cfg up req (PyExc.other m) _ hq
              (qd_token_err cfg up _ SELECT_COLS _ (gat_badJson cfg up m htok))] at h502
          simp [excResponse] at h502
      | success j =>
          cases hidx : jsonIndex j "access_token" with
          | error e =>
              obtain ⟨m, rfl⟩ := jsonIndex_error_other j _ e hidx
              have hga : get_access_token cfg up =
                  (Except.error (PyExc.other m), [OutCall.post (token_url cfg)]) := by
                rw [gat_success cfg up j htok, hidx]
              rw [search_err cfg up req (PyExc.other m) _ hq
                  (qd_token_err cfg up _ SELECT_COLS _ hga)] at h502
              simp [excResponse] at h502
          | ok tok =>
              cases hdat : up.dataResult (data_url cfg SELECT_COLS
                  (filter_expr_of (pyStrip (argD req "q" ""))
                    (argD req "by" "name"))) with
              | httpErr s t =>
                  have hs := search_err cfg up req (PyExc.httpError s t) _ hq
                      (qd_data_httpErr cfg up _ SELECT_COLS j tok s t htok hidx hdat)
                  exact ⟨s, t, Or.inr rfl, by rw [hs]; rfl⟩
              | netErr m =>
                  rw [search_err cfg up req (PyExc.other m) _ hq
                      (qd_data_netErr cfg up _ SELECT_COLS j tok m htok hidx hdat)] at h502
                  simp [excResponse] at h502
              | badJson m =>
                  rw [search_err cfg up req (PyExc.other m) _ hq
                      (qd_data_badJson cfg up _ SELECT_COLS j tok m htok hidx hdat)] at h502
                  simp [excResponse] at h502
              | success b =>
                  have hqd := qd_data_success cfg up
                      (filter_expr_of (pyStrip (argD req "q" "")) (argD req "by" "name"))
                      SELECT_COLS j tok b htok hidx hdat
                  cases hval : jsonGetD b "value" (Json.arr []) with
                  | error e =>
                      obtain ⟨m, rfl⟩ := jsonGetD_error_other b _ _ e hval
                      rw [hval] at hqd
                      rw [search_err cfg up req (PyExc.other m) _ hq hqd] at h502
                      simp [excResponse] at h502
                  | ok v =>
                      rw [hval] at hqd
                      cases hlen : pyLen v with
                      | ok n =>
                          rw [search_ok cfg up req v _ n hq hqd hlen] at h502
                          simp at h502
                      | error e =>
                          obtain ⟨m, rfl⟩ := pyLen_error_other v e hlen
                          rw [search_len_err cfg up req v _ (PyExc.other m) hq hqd hlen] at h502
                          simp [excResponse] at h502
  · intro h502
    cases htok : up.tokenResult with
    | httpErr s t =>
        have hs := go_token_err cfg up oid (PyExc.httpError s t)
            (gat_httpErr cfg up s t htok)
        exact ⟨s, t, Or.inl rfl, by rw [hs]; rfl⟩
    | netErr m =>
        rw [go_token_err cfg up oid (PyExc.other m) (gat_netErr cfg up m htok)] at h502
        simp [excResponse] at h502
    | badJson m =>
        rw [go_token_err cfg up oid (PyExc.other m) (gat_badJson cfg up m htok)] at h502
        simp [excResponse] at h502
    | success j =>
        cases hidx : jsonIndex j "access_token" with
        | error e =>
            obtain ⟨m, rfl⟩ := jsonIndex_error_other j _ e hidx
            have hga : get_access_token cfg up =
                (Except.error (PyExc.other m), [OutCall.post (token_url cfg)]) := by
              rw [gat_success cfg up j htok, hidx]
            rw [go_token_err cfg up oid (PyExc.other m) hga] at h502
            simp [excResponse] at h502
        | ok tok =>
            cases hdat : up.dataResult (order_url cfg oid) with
            | httpErr s t =>
                exact ⟨s, t, Or.inr rfl,
                  by rw [go_data_httpErr cfg up oid j tok s t htok hidx hdat]; rfl⟩
            | netErr m =>
                rw [go_data_netErr cfg up oid j tok m htok hidx hdat] at h502
                simp [excResponse] at h502
            | badJson m =>
                rw [go_data_badJson cfg up oid j tok m htok hidx hdat] at h502
                simp [excResponse] at h502
            | success b =>
                rw [go_data_success cfg up oid j tok b htok hidx hdat] at h502
                simp at h502

theorem http_502_has_upstream_witness :
    (search cfg0 upTokErr ⟨[("q", "abc")]⟩).1.status = 502 ∧
    (∃ s t, (upTokErr.tokenResult = FetchResult.httpErr s t ∨
        upTokErr.dataResult (data_url cfg0 SELECT_COLS
          (filter_expr_of (pyStrip (argD ⟨[("q", "abc")]⟩ "q" ""))
            (argD ⟨[("q", "abc")]⟩ "by" "name")))
          = FetchResult.httpErr s t)
      ∧ jsonLookup (search cfg0 upTokErr ⟨[("q", "abc")]⟩).1.body "detail"
          = some (Json.str t)) :=
  ⟨rfl, (http_502_has_upstream cfg0 upTokErr ⟨[("q", "abc")]⟩ "id1").1 rfl⟩


end Relay
